import Mathlib

/-!
Shallow embedding of `src/main.py` (GirlTalkBot): the meeting lifecycle
manager, the conversation state machine, the registration manager and the
calendar-integration fallback policy.

Modelling conventions:
* Timestamps are minutes since the epoch of year 1 (proleptic Gregorian),
  via `DateTime.toMin`.  The source stores `datetime.isoformat()` TEXT in
  sqlite and compares it lexicographically; for four-digit years that
  order coincides with chronological order, which `toMin` encodes.
* The high-resolution float `datetime.now().timestamp()` used for local
  event ids is modelled as a `Nat` tick (`Env.nowTs`); its decimal
  rendering is `natRepr`.
* The sqlite store is a `DB` value; `DB.ok = false` models the store
  raising on a write (connection/commit failure), the path caught by the
  broad `except` clauses in the source.
* The Google Calendar gateway is `Env`: the feature toggle
  `GOOGLE_CALENDAR_ON`, whether `calendar_service` is non-None, and the
  outcome of an `events().insert(...)` call.
-/

namespace GirlTalk

/-- Calendar date-time at minute granularity (the `%Y-%m-%d %H:%M` format
parsed by the source has no seconds). -/
structure DateTime where
  year : Nat
  month : Nat
  day : Nat
  hour : Nat
  minute : Nat
deriving DecidableEq, Repr

def isLeapYear (y : Nat) : Bool :=
  (y % 4 == 0 && y % 100 != 0) || (y % 400 == 0)

def daysInMonth (y m : Nat) : Nat :=
  match m with
  | 1 => 31
  | 2 => if isLeapYear y then 29 else 28
  | 3 => 31
  | 4 => 30
  | 5 => 31
  | 6 => 30
  | 7 => 31
  | 8 => 31
  | 9 => 30
  | 10 => 31
  | 11 => 30
  | 12 => 31
  | _ => 0

/-- Days in year `y` strictly before the first day of month `m`. -/
def daysBeforeMonth (y m : Nat) : Nat :=
  let leap := if isLeapYear y then 1 else 0
  match m with
  | 1 => 0
  | 2 => 31
  | 3 => 59 + leap
  | 4 => 90 + leap
  | 5 => 120 + leap
  | 6 => 151 + leap
  | 7 => 181 + leap
  | 8 => 212 + leap
  | 9 => 243 + leap
  | 10 => 273 + leap
  | 11 => 304 + leap
  | 12 => 334 + leap
  | _ => 0

/-- Days strictly before January 1 of year `y` (proleptic Gregorian,
counting from year 1). -/
def daysBeforeYear (y : Nat) : Nat :=
  365 * (y - 1) + (y - 1) / 4 - (y - 1) / 100 + (y - 1) / 400

/-- Minutes since the epoch; Python `datetime` comparison is chronological,
which this encoding realises. -/
def DateTime.toMin (dt : DateTime) : Nat :=
  (daysBeforeYear dt.year + daysBeforeMonth dt.year dt.month + (dt.day - 1)) * 1440
    + dt.hour * 60 + dt.minute

def digitsToNat (l : List Char) : Nat :=
  l.foldl (fun a c => a * 10 + (c.toNat - 48)) 0

/-- `datetime.strptime(s, "%Y-%m-%d %H:%M")`: four year digits, one or two
digits for the other fields, literal separators, nothing left over, and the
field-range checks `strptime`/the `datetime` constructor perform (month
1-12, day valid for the month, hour 0-23, minute 0-59, year at least 1). -/
def strptimeYmdHM (s : String) : Option DateTime :=
  let (ys, r1) := s.data.span Char.isDigit
  match r1 with
  | '-' :: t1 =>
    let (ms, r2) := t1.span Char.isDigit
    match r2 with
    | '-' :: t2 =>
      let (ds, r3) := t2.span Char.isDigit
      match r3 with
      | ' ' :: t3 =>
        let (hs, r4) := t3.span Char.isDigit
        match r4 with
        | ':' :: t4 =>
          let (ns, r5) := t4.span Char.isDigit
          let y := digitsToNat ys
          let mo := digitsToNat ms
          let d := digitsToNat ds
          let h := digitsToNat hs
          let mi := digitsToNat ns
          if r5 = [] && ys.length == 4 && 0 < ms.length && ms.length ≤ 2
              && 0 < ds.length && ds.length ≤ 2 && 0 < hs.length && hs.length ≤ 2
              && 0 < ns.length && ns.length ≤ 2
              && 1 ≤ y && 1 ≤ mo && mo ≤ 12 && 1 ≤ d && d ≤ daysInMonth y mo
              && h ≤ 23 && mi ≤ 59 then
            some ⟨y, mo, d, h, mi⟩
          else none
        | _ => none
      | _ => none
    | _ => none
  | _ => none

/-! Decimal rendering of the local-event timestamp.  The source writes
`f"local_event_{datetime.now().timestamp()}"`; the tick is modelled as a
`Nat` and rendered with `natRepr` (fuel-based so the kernel can reduce it). -/

def digitChar (d : Nat) : Char :=
  match d with
  | 0 => '0'
  | 1 => '1'
  | 2 => '2'
  | 3 => '3'
  | 4 => '4'
  | 5 => '5'
  | 6 => '6'
  | 7 => '7'
  | 8 => '8'
  | 9 => '9'
  | _ => '*'

def digitVal (c : Char) : Nat := c.toNat - 48

def natDigitsFuel : Nat → Nat → List Char
  | 0, _ => []
  | fuel + 1, n =>
    if n < 10 then [digitChar n]
    else natDigitsFuel fuel (n / 10) ++ [digitChar (n % 10)]

def natRepr (n : Nat) : String := ⟨natDigitsFuel (n + 1) n⟩

/-- The recognizable tag marking a synthetic, local-only event id. -/
def localTag : String := "local_event_"

/-- The synthesized fallback event id, from the high-resolution tick. -/
def localEventId (ts : Nat) : String := localTag ++ natRepr ts

/-! ## Persistence store

Two tables.  Modelled from the spec: `schema.sql` is not in the sources;
per the spec the `registrations` table has a uniqueness constraint on
`(meeting_id, user_id)` (insert raises `sqlite3.IntegrityError` on a
duplicate pair), and the referential association from registrations to
meetings is NOT enforced on insert (the source never issues
`PRAGMA foreign_keys=ON`, sqlite's default leaves it off). -/

structure MeetingRow where
  id : Nat
  event_id : String
  creator_id : Int
  creator_username : String
  title : String
  description : String
  start_time : Nat
  end_time : Nat
  calendar_link : Option String
deriving DecidableEq, Repr

structure RegistrationRow where
  id : Nat
  meeting_id : Nat
  user_id : Int
  username : String
  registered_at : Nat
deriving DecidableEq, Repr

/-- The sqlite database.  `ok = false` models the store raising on a write
(the paths caught by the broad `except Exception` clauses). -/
structure DB where
  meetings : List MeetingRow
  registrations : List RegistrationRow
  nextMeetingId : Nat
  nextRegistrationId : Nat
  ok : Bool
deriving DecidableEq, Repr

/-- Store invariant: autoincrement ids of existing rows stay below the
next id sqlite will assign. -/
def DB.wf (db : DB) : Prop :=
  ∀ m ∈ db.meetings, m.id < db.nextMeetingId

/-- Outcome of one `events().insert(...)` call against Google Calendar:
either a created event (id and optional `htmlLink`) or an exception
(`HttpError` or any other). -/
inductive GatewayOutcome
  | success (id : String) (link : Option String)
  | failure
deriving DecidableEq, Repr

/-- Ambient configuration and clock for one handler invocation. -/
structure Env where
  google_calendar_on : Bool
  calendar_service : Bool
  gatewayCreate : GatewayOutcome
  now : Nat
  nowTs : Nat
deriving Repr

/-! ## Query operations (`get_*` in the source) -/

def get_meeting_by_id (db : DB) (meeting_id : Nat) : Option MeetingRow :=
  db.meetings.find? (fun m => m.id == meeting_id)

/-- Sort key of `ORDER BY start_time ASC`. -/
def startLe (a b : MeetingRow) : Prop := a.start_time ≤ b.start_time

instance : DecidableRel startLe := fun a b => Nat.decLe a.start_time b.start_time

instance : IsTotal MeetingRow startLe := ⟨fun a b => Nat.le_total a.start_time b.start_time⟩

instance : IsTrans MeetingRow startLe := ⟨fun _ _ _ => Nat.le_trans⟩

/-- Sort key of `ORDER BY registered_at ASC`. -/
def regLe (a b : RegistrationRow) : Prop := a.registered_at ≤ b.registered_at

instance : DecidableRel regLe := fun a b => Nat.decLe a.registered_at b.registered_at

instance : IsTotal RegistrationRow regLe := ⟨fun a b => Nat.le_total a.registered_at b.registered_at⟩

instance : IsTrans RegistrationRow regLe := ⟨fun _ _ _ => Nat.le_trans⟩

/-- `SELECT * FROM meetings WHERE start_time > ? ORDER BY start_time ASC`
with `?` bound to `datetime.now().isoformat()`. -/
def get_upcoming_meetings (db : DB) (now : Nat) : List MeetingRow :=
  List.insertionSort startLe (db.meetings.filter (fun m => now < m.start_time))

/-- `SELECT COUNT(*) FROM registrations WHERE meeting_id = ?`. -/
def get_registration_count (db : DB) (meeting_id : Nat) : Nat :=
  (db.registrations.filter (fun r => r.meeting_id == meeting_id)).length

/-- `SELECT * FROM registrations WHERE meeting_id = ? ORDER BY registered_at ASC`. -/
def get_meeting_registrations (db : DB) (meeting_id : Nat) : List RegistrationRow :=
  List.insertionSort regLe (db.registrations.filter (fun r => r.meeting_id == meeting_id))

/-! ## Mutating operations -/

/-- `register_user_for_meeting`: `INSERT INTO registrations (meeting_id,
user_id, username) VALUES (?, ?, ?)`; returns `True` on success.  A
duplicate `(meeting_id, user_id)` raises `sqlite3.IntegrityError`, caught
and turned into `False` (logged at debug level); any other store failure is
caught by the generic `except` and also turned into `False` (logged at
error level).  No check that the meeting exists is made, and sqlite does
not enforce the foreign key (no pragma issued).  `registered_at` defaults
to the current timestamp (`now`). -/
def register_user_for_meeting (db : DB) (meeting_id : Nat) (user_id : Int)
    (username : String) (now : Nat) : Bool × DB :=
  if !db.ok then
    (false, db)
  else if db.registrations.any (fun r => r.meeting_id == meeting_id && r.user_id == user_id) then
    (false, db)
  else
    (true,
      { db with
        registrations := db.registrations ++
          [⟨db.nextRegistrationId, meeting_id, user_id, username, now⟩],
        nextRegistrationId := db.nextRegistrationId + 1 })

/-- `delete_meeting(meeting_id, creator_id)`: look the meeting up; if absent
or its `creator_id` column differs from the caller, return `False` without
touching anything.  Otherwise a Google-Calendar deletion is attempted when
the gateway is on, the service is present and the event id does not carry
`localTag` — any gateway failure is logged and ignored, with no effect on
the store, so the attempt has no observable effect in this model.  Then
`DELETE FROM registrations WHERE meeting_id = ?` followed by
`DELETE FROM meetings WHERE id = ?`; a store failure is caught by the
enclosing `except` and returns `False`. -/
def delete_meeting (db : DB) (meeting_id : Nat) (creator_id : Int) : Bool × DB :=
  match get_meeting_by_id db meeting_id with
  | none => (false, db)
  | some m =>
    if m.creator_id != creator_id then (false, db)
    else if !db.ok then (false, db)
    else
      (true,
        { db with
          registrations := db.registrations.filter (fun r => r.meeting_id != meeting_id),
          meetings := db.meetings.filter (fun r => r.id != meeting_id) })

/-- The gateway step of `create_calendar_event`: `events().insert(...)` is
attempted only when `GOOGLE_CALENDAR_ON` holds and `self.calendar_service`
is set; `some (id, htmlLink)` on success, `none` when the call raised or
was never made. -/
def gatewayAttempt (env : Env) : Option (String × Option String) :=
  if env.google_calendar_on && env.calendar_service then
    match env.gatewayCreate with
    | GatewayOutcome.success i l => some (i, l)
    | GatewayOutcome.failure => none
  else none

/-- The event id stored by `create_calendar_event`: the remote id when one
was obtained and truthy, else `local_event_{timestamp}`. -/
def chosenEventId (env : Env) : String :=
  match gatewayAttempt env with
  | some (i, _) => if i = "" then localEventId env.nowTs else i
  | none => localEventId env.nowTs

/-- The calendar link stored and returned: `created_event.get('htmlLink')`
when the remote insert succeeded, else `None` (it is not reset when the
remote id is falsy). -/
def chosenLink (env : Env) : Option String :=
  match gatewayAttempt env with
  | some (_, l) => l
  | none => none

/-- `create_calendar_event`: compute `end_time = start_time + 1h` (60
minutes here); run the best-effort gateway step (`gatewayAttempt`),
falling back to `local_event_{timestamp}` when no truthy remote id was
obtained; insert the meeting row; return `(True, calendar_link)`, or
`(False, None)` if the store write raised. -/
def create_calendar_event (env : Env) (db : DB) (title description : String)
    (start_time : Nat) (creator_id : Int) (creator_username : String) :
    (Bool × Option String) × DB :=
  let end_time := start_time + 60
  let event_id : String := chosenEventId env
  let calendar_link : Option String := chosenLink env
  if db.ok then
    ((true, calendar_link),
      { db with
        meetings := db.meetings ++
          [⟨db.nextMeetingId, event_id, creator_id, creator_username, title,
            description, start_time, end_time, calendar_link⟩],
        nextMeetingId := db.nextMeetingId + 1 })
  else ((false, none), db)

/-! ## Conversation state machine

`context.user_data` for one user: the `creating_meeting` flag, the current
step and the accumulated draft fields (absent dictionary keys are `none`).
-/

inductive Step
  | title
  | description
  | datetime
deriving DecidableEq, Repr

structure UserData where
  creating_meeting : Bool
  meeting_step : Option Step
  meeting_title : Option String
  meeting_description : Option String
deriving DecidableEq, Repr

/-- A fresh `context.user_data` with none of the keys set. -/
def UserData.empty : UserData := ⟨false, none, none, none⟩

/-- The replies `handle_meeting_creation` can send back to the user. -/
inductive Reply
  | promptDescription (title : String)
  | promptDatetime (description : String)
  | formatError
  | futureError
  | createdOk (link : Option String)
  | createFailed
deriving DecidableEq, Repr

/-- `create_meeting_command`: sets `creating_meeting = True` and
`meeting_step = 'title'` (prior draft keys are left as they were). -/
def create_meeting_command (ud : UserData) : UserData :=
  { ud with creating_meeting := true, meeting_step := some Step.title }

/-- `handle_meeting_creation`: one free-form text message from a user.
Ignored when no creation flow is active.  Otherwise dispatch on the step:
store the title / description verbatim and advance; at the datetime step
parse with `strptimeYmdHM` (a `ValueError` re-prompts with a format error
and no state change), reject a non-future timestamp the same way, and
otherwise call `create_calendar_event` and clear the flow state
unconditionally.  The draft keys are dictionary lookups in the source
(`user_data['meeting_title']`); they are always present when the datetime
step is reached through the flow, modelled with `Option.getD`. -/
def handle_meeting_creation (env : Env) (db : DB) (ud : UserData)
    (user_id : Int) (username : String) (text : String) :
    UserData × DB × Option Reply :=
  if !ud.creating_meeting then (ud, db, none)
  else
    match ud.meeting_step with
    | some Step.title =>
      ({ ud with meeting_title := some text, meeting_step := some Step.description },
        db, some (Reply.promptDescription text))
    | some Step.description =>
      ({ ud with meeting_description := some text, meeting_step := some Step.datetime },
        db, some (Reply.promptDatetime text))
    | some Step.datetime =>
      match strptimeYmdHM text with
      | none => (ud, db, some Reply.formatError)
      | some dt =>
        if dt.toMin ≤ env.now then (ud, db, some Reply.futureError)
        else
          let r := create_calendar_event env db (ud.meeting_title.getD "")
            (ud.meeting_description.getD "") dt.toMin user_id username
          (UserData.empty, r.2,
            some (if r.1.1 then Reply.createdOk r.1.2 else Reply.createFailed))
    | none => (ud, db, none)

end GirlTalk

namespace GirlTalk

theorem digitVal_digitChar : ∀ d < 10, digitVal (digitChar d) = d := by decide

theorem digitsToNat_append_one (l : List Char) (c : Char) :
    digitsToNat (l ++ [c]) = digitsToNat l * 10 + (c.toNat - 48) := by
  simp [digitsToNat, List.foldl_append]

theorem digitsToNat_natDigitsFuel :
    ∀ fuel n, n < 10 ^ fuel → digitsToNat (natDigitsFuel fuel n) = n := by
  intro fuel
  induction fuel with
  | zero =>
    intro n hn
    interval_cases n
    simp [natDigitsFuel, digitsToNat]
  | succ fuel ih =>
    intro n hn
    by_cases h : n < 10
    · have hd := digitVal_digitChar n h
      simp [natDigitsFuel, h, digitsToNat]
      simpa [digitsToNat, digitVal] using hd
    · have hdiv : n / 10 < 10 ^ fuel := by
        rw [Nat.div_lt_iff_lt_mul (by norm_num)]
        calc n < 10 ^ (fuel + 1) := hn
        _ = 10 ^ fuel * 10 := by rw [pow_succ]
      have hrec := ih (n / 10) hdiv
      have hmod := digitVal_digitChar (n % 10) (Nat.mod_lt n (by norm_num))
      rw [natDigitsFuel, if_neg h, digitsToNat_append_one, hrec]
      simp only [digitVal] at hmod
      rw [hmod]
      omega

theorem natRepr_inj {m n : Nat} (h : natRepr m = natRepr n) : m = n := by
  have hdata : natDigitsFuel (m + 1) m = natDigitsFuel (n + 1) n := congrArg String.data h
  have hm : m < 10 ^ (m + 1) :=
    lt_of_lt_of_le (Nat.lt_pow_self (by norm_num) m)
      (Nat.pow_le_pow_right (by norm_num) (Nat.le_succ m))
  have hn : n < 10 ^ (n + 1) :=
    lt_of_lt_of_le (Nat.lt_pow_self (by norm_num) n)
      (Nat.pow_le_pow_right (by norm_num) (Nat.le_succ n))
  calc m = digitsToNat (natDigitsFuel (m + 1) m) := (digitsToNat_natDigitsFuel _ m hm).symm
  _ = digitsToNat (natDigitsFuel (n + 1) n) := by rw [hdata]
  _ = n := digitsToNat_natDigitsFuel _ n hn

theorem localEventId_inj {t t' : Nat} (h : localEventId t = localEventId t') : t = t' := by
  have hdata := congrArg String.data h
  simp only [localEventId, String.data_append] at hdata
  have := List.append_cancel_left hdata
  exact natRepr_inj (by
    have : (natRepr t).data = (natRepr t').data := this
    cases hm : natRepr t
    cases hn : natRepr t'
    simp_all)

theorem localEventId_ne_empty (t : Nat) : localEventId t ≠ "" := by
  intro h
  have := congrArg String.length h
  rw [localEventId, String.length_append] at this
  have hl : localTag.length = 12 := by decide
  simp [hl] at this

end GirlTalk

namespace GirlTalk

/-! ## Concrete fixtures used by the witnesses -/

def strTitle : String := "Tea"
def strDesc : String := "chat"
def strUser : String := "alice"
def envGwFail : Env := ⟨true, true, GatewayOutcome.failure, 0, 42⟩
def dbEmpty : DB := ⟨[], [], 1, 1, true⟩

/-- With the gateway disabled, absent, or raising, no remote event is
obtained. -/
theorem gatewayAttempt_eq_none (env : Env)
    (hgw : env.google_calendar_on = false ∨ env.calendar_service = false ∨
      env.gatewayCreate = GatewayOutcome.failure) :
    gatewayAttempt env = none := by
  rcases hgw with h | h | h <;> simp [gatewayAttempt, h]

theorem chosenEventId_of_no_remote (env : Env) (h : gatewayAttempt env = none) :
    chosenEventId env = localEventId env.nowTs := by
  simp [chosenEventId, h]

theorem chosenLink_of_no_remote (env : Env) (h : gatewayAttempt env = none) :
    chosenLink env = none := by
  simp [chosenLink, h]

/-- C1: for valid input with a future start time, creation fails exactly
when the store write fails; with the gateway disabled, absent or raising,
it still succeeds, the stored event id is the synthesized local one
(carrying the local-only tag) and the returned calendar link is null. -/
theorem claim_C1 (env : Env) (db : DB) (t d : String) (st : Nat) (cid : Int)
    (cn : String) (hfut : env.now < st)
    (hgw : env.google_calendar_on = false ∨ env.calendar_service = false ∨
      env.gatewayCreate = GatewayOutcome.failure) :
    ((create_calendar_event env db t d st cid cn).1.1 = db.ok) ∧
    (db.ok = true →
      (create_calendar_event env db t d st cid cn).1.2 = none ∧
      (create_calendar_event env db t d st cid cn).2.meetings =
        db.meetings ++
          [⟨db.nextMeetingId, localEventId env.nowTs, cid, cn, t, d, st, st + 60, none⟩] ∧
      ∃ rest, localEventId env.nowTs = localTag ++ rest) := by
  have hnone := gatewayAttempt_eq_none env hgw
  have hid := chosenEventId_of_no_remote env hnone
  have hlink := chosenLink_of_no_remote env hnone
  cases hok : db.ok <;>
    simp [create_calendar_event, hid, hlink, hok, localEventId]

theorem claim_C1_witness :
    (envGwFail.now < 5 ∧
      (envGwFail.google_calendar_on = false ∨ envGwFail.calendar_service = false ∨
        envGwFail.gatewayCreate = GatewayOutcome.failure)) ∧
    (((create_calendar_event envGwFail dbEmpty strTitle strDesc 5 7 strUser).1.1 = dbEmpty.ok) ∧
    (dbEmpty.ok = true →
      (create_calendar_event envGwFail dbEmpty strTitle strDesc 5 7 strUser).1.2 = none ∧
      (create_calendar_event envGwFail dbEmpty strTitle strDesc 5 7 strUser).2.meetings =
        dbEmpty.meetings ++
          [⟨dbEmpty.nextMeetingId, localEventId envGwFail.nowTs, 7, strUser, strTitle, strDesc,
            5, 5 + 60, none⟩] ∧
      ∃ rest, localEventId envGwFail.nowTs = localTag ++ rest)) :=
  ⟨⟨by decide, by decide⟩,
    claim_C1 envGwFail dbEmpty strTitle strDesc 5 7 strUser (by decide) (by decide)⟩

/-- C2: creating a meeting and looking it up by its new id yields a row
whose end time is the start time plus exactly one hour (60 minutes). -/
theorem claim_C2 (env : Env) (db : DB) (t d : String) (st : Nat) (cid : Int)
    (cn : String) (hok : db.ok = true) (hwf : db.wf) (hfut : env.now < st) :
    ∃ m, get_meeting_by_id (create_calendar_event env db t d st cid cn).2 db.nextMeetingId
        = some m ∧ m.start_time = st ∧ m.end_time = st + 60 := by
  refine ⟨⟨db.nextMeetingId, chosenEventId env, cid, cn, t, d, st, st + 60, chosenLink env⟩,
    ?_, rfl, rfl⟩
  have hmeet : (create_calendar_event env db t d st cid cn).2.meetings =
      db.meetings ++
        [⟨db.nextMeetingId, chosenEventId env, cid, cn, t, d, st, st + 60, chosenLink env⟩] := by
    simp [create_calendar_event, hok]
  rw [get_meeting_by_id, hmeet, List.find?_append]
  have hnone : db.meetings.find? (fun m => m.id == db.nextMeetingId) = none := by
    refine List.find?_eq_none.mpr (fun x hx => ?_)
    have := hwf x hx
    simp [Nat.ne_of_lt this]
  rw [hnone]
  simp

theorem claim_C2_witness :
    (dbEmpty.ok = true ∧ dbEmpty.wf ∧ envGwFail.now < 5) ∧
    ∃ m, get_meeting_by_id
        (create_calendar_event envGwFail dbEmpty strTitle strDesc 5 7 strUser).2
        dbEmpty.nextMeetingId = some m ∧ m.start_time = 5 ∧ m.end_time = 5 + 60 :=
  ⟨⟨by decide, by simp [DB.wf, dbEmpty], by decide⟩,
    claim_C2 envGwFail dbEmpty strTitle strDesc 5 7 strUser (by decide)
      (by simp [DB.wf, dbEmpty]) (by decide)⟩

end GirlTalk

namespace GirlTalk

def regBea : RegistrationRow := ⟨1, 1, 2, strUser, 0⟩
def dbDup : DB := ⟨[], [regBea], 1, 2, true⟩
def dbDown : DB := ⟨[], [], 1, 1, false⟩
def meetRow : MeetingRow := ⟨1, localEventId 42, 1, strUser, strTitle, strDesc, 100, 160, none⟩
def dbOne : DB := ⟨[meetRow], [regBea], 2, 2, true⟩

/-- C3 counterexample: the function's returned outcome is a single
boolean, and the uniqueness-violation case returns the very same value
(`False`) as a genuine persistence failure — there is no distinct third
outcome in the returned result. -/
theorem claim_C3_counterexample :
    (register_user_for_meeting dbDup 1 2 strUser 3).1 = false ∧
    (register_user_for_meeting dbDown 1 2 strUser 3).1 = false ∧
    (register_user_for_meeting dbDup 1 2 strUser 3).1 =
      (register_user_for_meeting dbDown 1 2 strUser 3).1 := by decide

/-- C3 (amended): register returns a boolean — `True` on a successful
insert, `False` both on a uniqueness violation and on any other
persistence failure; called twice with the same pair on a store with no
registrations for the meeting it yields `True` then `False`, and the
registration count is 1 afterwards. -/
theorem claim_C3_amended (db : DB) (mid : Nat) (uid : Int) (uname : String)
    (t1 t2 : Nat) (hok : db.ok = true)
    (hfresh : db.registrations.filter (fun r => r.meeting_id == mid) = []) :
    (register_user_for_meeting db mid uid uname t1).1 = true ∧
    (register_user_for_meeting (register_user_for_meeting db mid uid uname t1).2
      mid uid uname t2).1 = false ∧
    get_registration_count (register_user_for_meeting
      (register_user_for_meeting db mid uid uname t1).2 mid uid uname t2).2 mid = 1 := by
  have hnone : ∀ r ∈ db.registrations, ¬(r.meeting_id == mid) = true :=
    List.filter_eq_nil_iff.mp hfresh
  have hnodup : db.registrations.any
      (fun r => r.meeting_id == mid && r.user_id == uid) = false := by
    rw [List.any_eq_false]
    intro r hr
    simp [hnone r hr]
  have h1 : register_user_for_meeting db mid uid uname t1 =
      (true, { db with
        registrations := db.registrations ++ [⟨db.nextRegistrationId, mid, uid, uname, t1⟩],
        nextRegistrationId := db.nextRegistrationId + 1 }) := by
    simp [register_user_for_meeting, hok, hnodup]
  refine ⟨by rw [h1], ?_, ?_⟩
  · rw [h1]
    simp [register_user_for_meeting, hok, List.any_append]
  · rw [h1]
    have h2 : register_user_for_meeting
        { db with
          registrations := db.registrations ++ [⟨db.nextRegistrationId, mid, uid, uname, t1⟩],
          nextRegistrationId := db.nextRegistrationId + 1 } mid uid uname t2 =
        (false, { db with
          registrations := db.registrations ++ [⟨db.nextRegistrationId, mid, uid, uname, t1⟩],
          nextRegistrationId := db.nextRegistrationId + 1 }) := by
      simp [register_user_for_meeting, hok, List.any_append]
    rw [h2]
    simp [get_registration_count, List.filter_append, hfresh]

theorem claim_C3_witness :
    (dbEmpty.ok = true ∧ dbEmpty.registrations.filter (fun r => r.meeting_id == 1) = []) ∧
    ((register_user_for_meeting dbEmpty 1 2 strUser 3).1 = true ∧
    (register_user_for_meeting (register_user_for_meeting dbEmpty 1 2 strUser 3).2
      1 2 strUser 4).1 = false ∧
    get_registration_count (register_user_for_meeting
      (register_user_for_meeting dbEmpty 1 2 strUser 3).2 1 2 strUser 4).2 1 = 1) :=
  ⟨⟨by decide, by decide⟩, claim_C3_amended dbEmpty 1 2 strUser 3 4 (by decide) (by decide)⟩

/-- C4: when the meeting is absent or its creator differs from the
requester, deletion reports failure and the store is untouched: the
lookup and the registration count are unchanged. -/
theorem claim_C4 (db : DB) (mid : Nat) (rid : Int)
    (h : (get_meeting_by_id db mid).all (fun m => m.creator_id != rid) = true) :
    delete_meeting db mid rid = (false, db) ∧
    get_meeting_by_id (delete_meeting db mid rid).2 mid = get_meeting_by_id db mid ∧
    get_registration_count (delete_meeting db mid rid).2 mid =
      get_registration_count db mid := by
  have hres : delete_meeting db mid rid = (false, db) := by
    cases hm : get_meeting_by_id db mid with
    | none => simp [delete_meeting, hm]
    | some m =>
      have hne : (m.creator_id != rid) = true := by
        simpa [hm] using h
      simp [delete_meeting, hm, hne]
  exact ⟨hres, by rw [hres], by rw [hres]⟩

theorem claim_C4_witness :
    ((get_meeting_by_id dbOne 1).all (fun m => m.creator_id != 2) = true) ∧
    (delete_meeting dbOne 1 2 = (false, dbOne) ∧
    get_meeting_by_id (delete_meeting dbOne 1 2).2 1 = get_meeting_by_id dbOne 1 ∧
    get_registration_count (delete_meeting dbOne 1 2).2 1 =
      get_registration_count dbOne 1) :=
  ⟨by decide, claim_C4 dbOne 1 2 (by decide)⟩

/-- C5: deletion by the true creator succeeds, and afterwards the meeting
is gone and its registration roster is empty. -/
theorem claim_C5 (db : DB) (mid : Nat) (rid : Int) (m : MeetingRow)
    (hm : get_meeting_by_id db mid = some m) (hc : m.creator_id = rid)
    (hok : db.ok = true) :
    (delete_meeting db mid rid).1 = true ∧
    get_meeting_by_id (delete_meeting db mid rid).2 mid = none ∧
    get_meeting_registrations (delete_meeting db mid rid).2 mid = [] := by
  have hres : delete_meeting db mid rid =
      (true, { db with
        registrations := db.registrations.filter (fun r => r.meeting_id != mid),
        meetings := db.meetings.filter (fun r => r.id != mid) }) := by
    simp [delete_meeting, hm, hc, hok]
  refine ⟨by rw [hres], ?_, ?_⟩
  · rw [hres]
    refine List.find?_eq_none.mpr (fun x hx => ?_)
    have := (List.mem_filter.mp hx).2
    simpa using this
  · rw [hres]
    have hnil : (db.registrations.filter (fun r => r.meeting_id != mid)).filter
        (fun r => r.meeting_id == mid) = [] := by
      refine List.filter_eq_nil_iff.mpr (fun a ha => ?_)
      have := (List.mem_filter.mp ha).2
      simpa using this
    simp [get_meeting_registrations, hnil, List.insertionSort]

theorem claim_C5_witness :
    (get_meeting_by_id dbOne 1 = some meetRow ∧ meetRow.creator_id = 1 ∧ dbOne.ok = true) ∧
    ((delete_meeting dbOne 1 1).1 = true ∧
    get_meeting_by_id (delete_meeting dbOne 1 1).2 1 = none ∧
    get_meeting_registrations (delete_meeting dbOne 1 1).2 1 = []) :=
  ⟨⟨by decide, by decide, by decide⟩,
    claim_C5 dbOne 1 1 meetRow (by decide) (by decide) (by decide)⟩

end GirlTalk

namespace GirlTalk

/-- C6: the upcoming-meetings query returns exactly the stored meetings
whose start time is strictly after the current time, sorted ascending by
start time. -/
theorem claim_C6 (db : DB) (now : Nat) :
    List.Sorted startLe (get_upcoming_meetings db now) ∧
    (get_upcoming_meetings db now).Perm
      (db.meetings.filter (fun m => now < m.start_time)) :=
  ⟨List.sorted_insertionSort startLe _, List.perm_insertionSort startLe _⟩

def userA : Int := 7
def titleBC : String := "Book Club"
def descBC : String := "Discuss chapter 5"
def badDate : String := "not-a-date"
def goodDate : String := "2030-01-01 10:00"
def dt2030 : DateTime := ⟨2030, 1, 1, 10, 0⟩
def env7 : Env := ⟨true, false, GatewayOutcome.failure, DateTime.toMin ⟨2025, 10, 12, 0, 0⟩, 42⟩
def flow1 : UserData × DB × Option Reply :=
  handle_meeting_creation env7 dbEmpty (create_meeting_command UserData.empty) userA strUser titleBC
def flow2 : UserData × DB × Option Reply :=
  handle_meeting_creation env7 flow1.2.1 flow1.1 userA strUser descBC
def flow3 : UserData × DB × Option Reply :=
  handle_meeting_creation env7 flow2.2.1 flow2.1 userA strUser badDate
def flow4 : UserData × DB × Option Reply :=
  handle_meeting_creation env7 flow3.2.1 flow3.1 userA strUser goodDate

/-- C7: the conversation flow accepts the title and description verbatim,
rejects a malformed datetime with a format error while staying at the
datetime step with the draft unchanged, and on a valid future datetime
completes the draft (title, description, parsed start time), stores the
meeting and clears the state. -/
theorem claim_C7 :
    flow1.1 = ⟨true, some Step.description, some titleBC, none⟩ ∧
    flow1.2.2 = some (Reply.promptDescription titleBC) ∧
    flow2.1 = ⟨true, some Step.datetime, some titleBC, some descBC⟩ ∧
    flow2.2.2 = some (Reply.promptDatetime descBC) ∧
    flow3 = (flow2.1, flow2.2.1, some Reply.formatError) ∧
    flow4.1 = UserData.empty ∧
    flow4.2.2 = some (Reply.createdOk none) ∧
    flow4.2.1.meetings = [⟨1, localEventId 42, userA, strUser, titleBC, descBC,
      DateTime.toMin dt2030, DateTime.toMin dt2030 + 60, none⟩] := by decide

/-- C8: a text message from a user with no active creation flow is
ignored: state and store unchanged, no reply produced. -/
theorem claim_C8 (env : Env) (db : DB) (ud : UserData) (uid : Int)
    (uname text : String) (h : ud.creating_meeting = false) :
    handle_meeting_creation env db ud uid uname text = (ud, db, none) := by
  simp [handle_meeting_creation, h]

theorem claim_C8_witness :
    UserData.empty.creating_meeting = false ∧
    handle_meeting_creation envGwFail dbEmpty UserData.empty 7 strUser strTitle =
      (UserData.empty, dbEmpty, none) :=
  ⟨by decide, claim_C8 envGwFail dbEmpty UserData.empty 7 strUser strTitle (by decide)⟩

/-- C9: when no remote event id is obtained, the stored event id is the
synthesized local one: non-empty, carrying the recognizable local-only
tag, and distinct timestamps always give distinct synthesized ids. -/
theorem claim_C9 (env : Env) (db : DB) (t d : String) (st : Nat) (cid : Int)
    (cn : String)
    (hgw : env.google_calendar_on = false ∨ env.calendar_service = false ∨
      env.gatewayCreate = GatewayOutcome.failure)
    (hok : db.ok = true) :
    ∃ row, (create_calendar_event env db t d st cid cn).2.meetings =
        db.meetings ++ [row] ∧
      row.event_id = localEventId env.nowTs ∧
      row.event_id ≠ "" ∧
      (∃ rest, row.event_id = localTag ++ rest) ∧
      (∀ ts ts', localEventId ts = localEventId ts' → ts = ts') := by
  have hnone := gatewayAttempt_eq_none env hgw
  have hid := chosenEventId_of_no_remote env hnone
  refine ⟨⟨db.nextMeetingId, chosenEventId env, cid, cn, t, d, st, st + 60, chosenLink env⟩,
    by simp [create_calendar_event, hok], hid, ?_, ?_,
    fun ts ts' h => localEventId_inj h⟩
  · rw [hid]
    exact localEventId_ne_empty env.nowTs
  · rw [hid]
    exact ⟨natRepr env.nowTs, rfl⟩

theorem claim_C9_witness :
    ((envGwFail.google_calendar_on = false ∨ envGwFail.calendar_service = false ∨
      envGwFail.gatewayCreate = GatewayOutcome.failure) ∧ dbEmpty.ok = true) ∧
    ∃ row, (create_calendar_event envGwFail dbEmpty strTitle strDesc 5 7 strUser).2.meetings =
        dbEmpty.meetings ++ [row] ∧
      row.event_id = localEventId envGwFail.nowTs ∧
      row.event_id ≠ "" ∧
      (∃ rest, row.event_id = localTag ++ rest) ∧
      (∀ ts ts', localEventId ts = localEventId ts' → ts = ts') :=
  ⟨⟨by decide, by decide⟩,
    claim_C9 envGwFail dbEmpty strTitle strDesc 5 7 strUser (by decide) (by decide)⟩

/-- C10: registration never checks that the meeting exists: for an absent
meeting id the first call inserts a row and reports success, leaving a
registration for a meeting that is not there. -/
theorem claim_C10 (db : DB) (mid : Nat) (uid : Int) (uname : String) (now : Nat)
    (hok : db.ok = true)
    (habsent : get_meeting_by_id db mid = none)
    (hnew : db.registrations.any
      (fun r => r.meeting_id == mid && r.user_id == uid) = false) :
    (register_user_for_meeting db mid uid uname now).1 = true ∧
    get_registration_count (register_user_for_meeting db mid uid uname now).2 mid =
      get_registration_count db mid + 1 ∧
    get_meeting_by_id (register_user_for_meeting db mid uid uname now).2 mid = none := by
  have h1 : register_user_for_meeting db mid uid uname now =
      (true, { db with
        registrations := db.registrations ++ [⟨db.nextRegistrationId, mid, uid, uname, now⟩],
        nextRegistrationId := db.nextRegistrationId + 1 }) := by
    simp [register_user_for_meeting, hok, hnew]
  refine ⟨by rw [h1], ?_, ?_⟩
  · rw [h1]
    simp [get_registration_count, List.filter_append]
  · rw [h1]
    exact habsent

theorem claim_C10_witness :
    (dbEmpty.ok = true ∧ get_meeting_by_id dbEmpty 42 = none ∧
      dbEmpty.registrations.any (fun r => r.meeting_id == 42 && r.user_id == 2) = false) ∧
    ((register_user_for_meeting dbEmpty 42 2 strUser 3).1 = true ∧
    get_registration_count (register_user_for_meeting dbEmpty 42 2 strUser 3).2 42 =
      get_registration_count dbEmpty 42 + 1 ∧
    get_meeting_by_id (register_user_for_meeting dbEmpty 42 2 strUser 3).2 42 = none) :=
  ⟨⟨by decide, by decide, by decide⟩,
    claim_C10 dbEmpty 42 2 strUser 3 (by decide) (by decide) (by decide)⟩

end GirlTalk
